import Mathlib

/-!
Shallow embedding of `syscalls.py`: the syscall table and replay-semantics
registry of a record-and-replay debugger.

The Python module defines a class hierarchy
(`BaseSyscall`, `ReplaySemantics`, `RestartSyscall`, `UnsupportedSyscall`,
`InvalidSyscall`, `RegularSyscall`, `EmulatedSyscall`, `ExecutedSyscall`,
`IrregularSyscall`, `IrregularEmulatedSyscall`, `IrregularMayExecSyscall`),
then 388 module-level declarations, one per syscall, and three query helpers
(`_syscalls`, `all`, `for_arch`).

Constructors are modelled as functions from keyword-argument lists to
`Option Syscall`; `none` models any construction-time failure (a failed
`assert` or a `TypeError` from an unexpected keyword argument).  Python
values that can appear as constructor arguments are modelled by `Val`
(`None`, an integer, or a string), with Python truthiness made explicit.
-/

namespace Syscalls

/-- A Python value that can appear as a keyword-argument value in the
syscall declarations: `None`, a (non-negative) integer syscall number, or a
string (a semantics tag or an argument-shape descriptor). -/
inductive Val where
  | vnone : Val
  | vint : Nat → Val
  | vstr : String → Val
deriving DecidableEq

/-- A keyword-argument list, as passed to a Python constructor.  Order is the
source order of the keywords at the call site; Python forbids repeating a
keyword, and all call sites in the module use distinct keywords. -/
abbrev Kwargs := List (String × Val)

/-- `kwargs.get(k)`-style lookup: the value bound to keyword `k`, if any. -/
def lookupKw (kw : Kwargs) (k : String) : Option Val :=
  (kw.find? (fun p => p.1 == k)).map (fun p => p.2)

/-- Python truthiness of a `Val`: `None`, `0` and `""` are falsy.  This is
the test `assert x86 or x64` performs. -/
def truthy : Val → Bool
  | .vnone => false
  | .vint n => n != 0
  | .vstr s => s != ""

/-- The dynamic (most-derived) class of a constructed syscall object.  Only
these classes are instantiated by the module's declarations, plus `regular`
and `irregular` for direct instantiation of the two mid-hierarchy classes.
`InvalidSyscall` is a subclass of `UnsupportedSyscall` in the source, which
the category predicates below reflect. -/
inductive Cls where
  | restart : Cls
  | unsupported : Cls
  | invalid : Cls
  | regular : Cls
  | emulated : Cls
  | executed : Cls
  | irregular : Cls
  | irregularEmulated : Cls
  | irregularMayExec : Cls
deriving DecidableEq

/-- A fully constructed syscall object: its class, the `x86` and `x64`
attributes set by `BaseSyscall.__init__`, the `semantics` attribute set by
`ReplaySemantics.__init__`, and the `argN` attributes set by
`RegularSyscall.__init__` (position paired with the stored value). -/
structure Syscall where
  cls : Cls
  x86 : Val
  x64 : Val
  semantics : Val
  args : List (Nat × Val)
deriving DecidableEq

/-- `getattr(s, "argN")` for an argument position: the shape descriptor the
object stores at position `p`, if any. -/
def Syscall.getArg (s : Syscall) (p : Nat) : Option Val :=
  (s.args.find? (fun q => q.1 == p)).map (fun q => q.2)

/-- `BaseSyscall.__init__(self, x86=None, x64=None, **kwargs)`:
binds `x86` and `x64` from the keyword arguments (defaulting to `None`),
ignores every other keyword, and runs `assert x86 or x64` — note the Python
truthiness: the number `0` does not satisfy the assertion.  Returns the pair
of attributes stored on success. -/
def BaseSyscall.init (kw : Kwargs) : Option (Val × Val) :=
  let x86 := (lookupKw kw "x86").getD Val.vnone
  let x64 := (lookupKw kw "x64").getD Val.vnone
  if truthy x86 || truthy x64 then some (x86, x64) else none

/-- `ReplaySemantics.ALL_SEMANTICS = ["EMU", "EXEC", "MAY_EXEC"]`. -/
def ReplaySemantics.ALL_SEMANTICS : List Val :=
  [Val.vstr "EMU", Val.vstr "EXEC", Val.vstr "MAY_EXEC"]

/-- `ReplaySemantics.__init__(self, semantics)`:
`assert semantics in self.ALL_SEMANTICS`, then store it. -/
def ReplaySemantics.init (semantics : Val) : Option Val :=
  if semantics ∈ ReplaySemantics.ALL_SEMANTICS then some semantics else none

/-- One iteration of the `for a in range(1,6)` loop in
`RegularSyscall.__init__`: `if arg in kwargs: self.__setattr__(arg, ...)`,
where `arg = 'arg' + str(a)`.  Yields the attribute set at position `a`. -/
def RegularSyscall.argAttr (kwargs : Kwargs) (a : Nat) : List (Nat × Val) :=
  match lookupKw kwargs ("arg" ++ toString a) with
  | some v => [(a, v)]
  | none => []

/-- The `for a in range(1,6)` loop in `RegularSyscall.__init__`, unrolled:
`range(1,6)` is `1,2,3,4,5`, so an `arg6` keyword is never stored. -/
def RegularSyscall.argAttrs (kwargs : Kwargs) : List (Nat × Val) :=
  RegularSyscall.argAttr kwargs 1 ++ RegularSyscall.argAttr kwargs 2 ++
  RegularSyscall.argAttr kwargs 3 ++ RegularSyscall.argAttr kwargs 4 ++
  RegularSyscall.argAttr kwargs 5

/-- `RegularSyscall.__init__(self, semantics=None, **kwargs)`:
`assert semantics in [EMU, EXEC]`, then `ReplaySemantics.__init__`, then
`BaseSyscall.__init__(self, **kwargs)`, then the `argN` storing loop.
`c` is the dynamic class of the object under construction (`regular` for a
direct instantiation, the wrapper's class otherwise). -/
def RegularSyscall.init (c : Cls) (semantics : Val) (kwargs : Kwargs) : Option Syscall :=
  if semantics ∈ [Val.vstr "EMU", Val.vstr "EXEC"] then
    match ReplaySemantics.init semantics with
    | none => none
    | some sem =>
      match BaseSyscall.init kwargs with
      | none => none
      | some nums =>
        some { cls := c, x86 := nums.1, x64 := nums.2, semantics := sem,
               args := RegularSyscall.argAttrs kwargs }
  else none

/-- `EmulatedSyscall.__init__(self, **kwargs)`: delegates to
`RegularSyscall.__init__(self, semantics=EMU, **kwargs)`.  A `semantics`
keyword at the call site would be passed twice — a `TypeError`. -/
def EmulatedSyscall.init (kwargs : Kwargs) : Option Syscall :=
  if (lookupKw kwargs "semantics").isSome then none
  else RegularSyscall.init Cls.emulated (Val.vstr "EMU") kwargs

/-- `ExecutedSyscall.__init__(self, **kwargs)`: delegates to
`RegularSyscall.__init__(self, semantics=EXEC, **kwargs)`. -/
def ExecutedSyscall.init (kwargs : Kwargs) : Option Syscall :=
  if (lookupKw kwargs "semantics").isSome then none
  else RegularSyscall.init Cls.executed (Val.vstr "EXEC") kwargs

/-- `IrregularSyscall.__init__(self, semantics=None, **kwargs)`:
`assert semantics in [MAY_EXEC, EMU]`, then `ReplaySemantics.__init__`, then
`BaseSyscall.__init__(self, **kwargs)`.  No `argN` attribute is ever stored;
shape keywords in `kwargs` are silently ignored by `BaseSyscall.__init__`. -/
def IrregularSyscall.init (c : Cls) (semantics : Val) (kwargs : Kwargs) : Option Syscall :=
  if semantics ∈ [Val.vstr "MAY_EXEC", Val.vstr "EMU"] then
    match ReplaySemantics.init semantics with
    | none => none
    | some sem =>
      match BaseSyscall.init kwargs with
      | none => none
      | some nums =>
        some { cls := c, x86 := nums.1, x64 := nums.2, semantics := sem, args := [] }
  else none

/-- `IrregularEmulatedSyscall.__init__(self, **kwargs)`: delegates to
`IrregularSyscall.__init__(self, semantics=EMU, **kwargs)`. -/
def IrregularEmulatedSyscall.init (kwargs : Kwargs) : Option Syscall :=
  if (lookupKw kwargs "semantics").isSome then none
  else IrregularSyscall.init Cls.irregularEmulated (Val.vstr "EMU") kwargs

/-- `IrregularMayExecSyscall.__init__(self, **kwargs)`: delegates to
`IrregularSyscall.__init__(self, semantics=MAY_EXEC, **kwargs)`. -/
def IrregularMayExecSyscall.init (kwargs : Kwargs) : Option Syscall :=
  if (lookupKw kwargs "semantics").isSome then none
  else IrregularSyscall.init Cls.irregularMayExec (Val.vstr "MAY_EXEC") kwargs

/-- `RestartSyscall.__init__(self, x86=None, x64=None)`: the signature takes
no `**kwargs`, so any other keyword is a `TypeError`; then
`BaseSyscall.__init__` and `ReplaySemantics.__init__(self, EXEC)`. -/
def RestartSyscall.init (kw : Kwargs) : Option Syscall :=
  if kw.all (fun p => p.1 == "x86" || p.1 == "x64") then
    (BaseSyscall.init kw).map (fun nums =>
      { cls := Cls.restart, x86 := nums.1, x64 := nums.2,
        semantics := Val.vstr "EXEC", args := [] })
  else none

/-- `UnsupportedSyscall.__init__(self, x86=None, x64=None)`: the signature
takes no `**kwargs`, so any other keyword is a `TypeError`; then
`BaseSyscall.__init__` and `ReplaySemantics.__init__(self, EXEC)`. -/
def UnsupportedSyscall.init (kw : Kwargs) : Option Syscall :=
  if kw.all (fun p => p.1 == "x86" || p.1 == "x64") then
    (BaseSyscall.init kw).map (fun nums =>
      { cls := Cls.unsupported, x86 := nums.1, x64 := nums.2,
        semantics := Val.vstr "EXEC", args := [] })
  else none

/-- `InvalidSyscall.__init__(self, x86=None, x64=None)`: the signature takes
no `**kwargs`; delegates to `UnsupportedSyscall.__init__(self, x86, x64)`.
The constructed object's class is `InvalidSyscall`. -/
def InvalidSyscall.init (kw : Kwargs) : Option Syscall :=
  if kw.all (fun p => p.1 == "x86" || p.1 == "x64") then
    (UnsupportedSyscall.init kw).map (fun s => { s with cls := Cls.invalid })
  else none

/-- `isinstance(s, RegularSyscall)` — the Ordinary category. -/
def isOrdinary (s : Syscall) : Bool :=
  match s.cls with
  | .regular | .emulated | .executed => true
  | _ => false

/-- `isinstance(s, IrregularSyscall)` — the Irregular category. -/
def isIrregular (s : Syscall) : Bool :=
  match s.cls with
  | .irregular | .irregularEmulated | .irregularMayExec => true
  | _ => false

/-- `isinstance(s, UnsupportedSyscall)` — the Unsupported category.
`InvalidSyscall` subclasses `UnsupportedSyscall`, so invalid entries are
unsupported entries as well. -/
def isUnsupported (s : Syscall) : Bool :=
  match s.cls with
  | .unsupported | .invalid => true
  | _ => false

/-- `isinstance(s, InvalidSyscall)` — the Invalid category. -/
def isInvalid (s : Syscall) : Bool :=
  match s.cls with
  | .invalid => true
  | _ => false

/-- `isinstance(s, RestartSyscall)` — the Restart category. -/
def isRestart (s : Syscall) : Bool :=
  match s.cls with
  | .restart => true
  | _ => false

/-- One module-level declaration `name = SomeClass(kwargs)`.  The constructor
used is the constructor of the named wrapper class. -/
inductive Decl where
  | emulated : String → Kwargs → Decl
  | executed : String → Kwargs → Decl
  | irregularEmulated : String → Kwargs → Decl
  | irregularMayExec : String → Kwargs → Decl
  | unsupported : String → Kwargs → Decl
  | invalid : String → Kwargs → Decl
  | restart : String → Kwargs → Decl
deriving DecidableEq

/-- The name a declaration binds. -/
def Decl.name : Decl → String
  | .emulated n _ => n
  | .executed n _ => n
  | .irregularEmulated n _ => n
  | .irregularMayExec n _ => n
  | .unsupported n _ => n
  | .invalid n _ => n
  | .restart n _ => n

/-- Run a declaration's constructor on its keyword arguments. -/
def Decl.run : Decl → Option Syscall
  | .emulated _ kw => EmulatedSyscall.init kw
  | .executed _ kw => ExecutedSyscall.init kw
  | .irregularEmulated _ kw => IrregularEmulatedSyscall.init kw
  | .irregularMayExec _ kw => IrregularMayExecSyscall.init kw
  | .unsupported _ kw => UnsupportedSyscall.init kw
  | .invalid _ kw => InvalidSyscall.init kw
  | .restart _ kw => RestartSyscall.init kw

/-- Build the registry from the declaration list: every construction must
succeed or the module fails to load (a failed `assert` aborts the import). -/
def buildRegistry (ds : List Decl) : Option (List (String × Syscall)) :=
  ds.mapM (fun d => (d.run).map (fun s => (d.name, s)))

end Syscalls

namespace Syscalls

/-- Declarations 1-50 of the module, in source order. -/
def declarations0 : List Decl := [
  .irregularMayExec "exit" [("x86", .vint 1), ("x64", .vint 60)],
  .emulated "fork" [("x86", .vint 2), ("x64", .vint 57)],
  .irregularEmulated "read" [("x86", .vint 3), ("x64", .vint 0)],
  .irregularEmulated "write" [("x86", .vint 4), ("x64", .vint 1)],
  .emulated "open" [("x86", .vint 5), ("x64", .vint 2)],
  .emulated "close" [("x86", .vint 6), ("x64", .vint 3)],
  .irregularEmulated "waitpid" [("x86", .vint 7)],
  .emulated "creat" [("x86", .vint 8), ("x64", .vint 85)],
  .emulated "link" [("x86", .vint 9), ("x64", .vint 86)],
  .emulated "unlink" [("x86", .vint 10), ("x64", .vint 87)],
  .irregularMayExec "execve" [("x86", .vint 11), ("x64", .vint 59)],
  .emulated "chdir" [("x86", .vint 12), ("x64", .vint 80)],
  .emulated "time" [("x86", .vint 13), ("x64", .vint 201), ("arg1", .vstr "typename Arch::time_t")],
  .unsupported "mknod" [("x86", .vint 14), ("x64", .vint 133)],
  .emulated "chmod" [("x86", .vint 15), ("x64", .vint 90)],
  .emulated "lchown" [("x86", .vint 16), ("x64", .vint 94)],
  .invalid "_break" [("x86", .vint 17)],
  .unsupported "oldstat" [("x86", .vint 18)],
  .emulated "lseek" [("x86", .vint 19), ("x64", .vint 8)],
  .emulated "getpid" [("x86", .vint 20), ("x64", .vint 39)],
  .unsupported "mount" [("x86", .vint 21), ("x64", .vint 165)],
  .unsupported "umount" [("x86", .vint 22)],
  .unsupported "setuid" [("x86", .vint 23), ("x64", .vint 105)],
  .emulated "getuid" [("x86", .vint 24), ("x64", .vint 102)],
  .unsupported "stime" [("x86", .vint 25)],
  .irregularEmulated "ptrace" [("x86", .vint 26), ("x64", .vint 101)],
  .emulated "alarm" [("x86", .vint 27), ("x64", .vint 37)],
  .unsupported "oldfstat" [("x86", .vint 28)],
  .irregularEmulated "pause" [("x86", .vint 29), ("x64", .vint 34)],
  .emulated "utime" [("x86", .vint 30), ("x64", .vint 132)],
  .invalid "stty" [("x86", .vint 31)],
  .invalid "gtty" [("x86", .vint 32)],
  .emulated "access" [("x86", .vint 33), ("x64", .vint 21)],
  .unsupported "nice" [("x86", .vint 34)],
  .invalid "ftime" [("x86", .vint 35)],
  .unsupported "sync" [("x86", .vint 36), ("x64", .vint 162)],
  .emulated "kill" [("x86", .vint 37), ("x64", .vint 62)],
  .emulated "rename" [("x86", .vint 38), ("x64", .vint 82)],
  .emulated "mkdir" [("x86", .vint 39), ("x64", .vint 83)],
  .emulated "rmdir" [("x86", .vint 40), ("x64", .vint 84)],
  .emulated "dup" [("x86", .vint 41), ("x64", .vint 32)],
  .emulated "pipe" [("x86", .vint 42), ("x64", .vint 22), ("arg1", .vstr "int[2]")],
  .emulated "times" [("x86", .vint 43), ("x64", .vint 100), ("arg1", .vstr "typename Arch::tms")],
  .invalid "prof" [("x86", .vint 44)],
  .executed "brk" [("x86", .vint 45), ("x64", .vint 12)],
  .unsupported "setgid" [("x86", .vint 46), ("x64", .vint 106)],
  .emulated "getgid" [("x86", .vint 47), ("x64", .vint 104)],
  .unsupported "signal" [("x86", .vint 48)],
  .emulated "geteuid" [("x86", .vint 49), ("x64", .vint 107)],
  .emulated "getegid" [("x86", .vint 50), ("x64", .vint 108)]
]

/-- Declarations 51-100 of the module, in source order. -/
def declarations1 : List Decl := [
  .unsupported "acct" [("x86", .vint 51), ("x64", .vint 163)],
  .unsupported "umount2" [("x86", .vint 52), ("x64", .vint 166)],
  .invalid "lock" [("x86", .vint 53)],
  .irregularEmulated "ioctl" [("x86", .vint 54), ("x64", .vint 16)],
  .irregularEmulated "fcntl" [("x86", .vint 55), ("x64", .vint 72)],
  .invalid "mpx" [("x86", .vint 56)],
  .emulated "setpgid" [("x86", .vint 57), ("x64", .vint 109)],
  .invalid "ulimit" [("x86", .vint 58)],
  .unsupported "oldolduname" [("x86", .vint 59)],
  .emulated "umask" [("x86", .vint 60), ("x64", .vint 95)],
  .unsupported "chroot" [("x86", .vint 61), ("x64", .vint 161)],
  .unsupported "ustat" [("x86", .vint 62), ("x64", .vint 136)],
  .emulated "dup2" [("x86", .vint 63), ("x64", .vint 33)],
  .emulated "getppid" [("x86", .vint 64), ("x64", .vint 110)],
  .emulated "getpgrp" [("x86", .vint 65), ("x64", .vint 111)],
  .emulated "setsid" [("x86", .vint 66), ("x64", .vint 112)],
  .emulated "sigaction" [("x86", .vint 67), ("arg3", .vstr "typename Arch::kernel_sigaction")],
  .unsupported "sgetmask" [("x86", .vint 68)],
  .unsupported "ssetmask" [("x86", .vint 69)],
  .unsupported "setreuid" [("x86", .vint 70), ("x64", .vint 113)],
  .unsupported "setregid" [("x86", .vint 71), ("x64", .vint 114)],
  .irregularEmulated "sigsuspend" [("x86", .vint 72)],
  .unsupported "sigpending" [("x86", .vint 73)],
  .unsupported "sethostname" [("x86", .vint 74), ("x64", .vint 170)],
  .executed "setrlimit" [("x86", .vint 75), ("x64", .vint 160), ("arg2", .vstr "typename Arch::rlimit")],
  .emulated "getrlimit" [("x64", .vint 97), ("arg2", .vstr "typename Arch::rlimit")],
  .emulated "getrusage" [("x86", .vint 77), ("x64", .vint 98), ("arg2", .vstr "typename Arch::rusage")],
  .emulated "gettimeofday" [("x86", .vint 78), ("x64", .vint 96), ("arg1", .vstr "typename Arch::timeval"), ("arg2", .vstr "typename Arch::timezone")],
  .unsupported "settimeofday" [("x86", .vint 79), ("x64", .vint 164)],
  .irregularEmulated "getgroups" [("x86", .vint 80), ("x64", .vint 115)],
  .unsupported "setgroups" [("x86", .vint 81), ("x64", .vint 116)],
  .irregularEmulated "select" [("x86", .vint 82), ("x64", .vint 23)],
  .emulated "symlink" [("x86", .vint 83), ("x64", .vint 88)],
  .unsupported "oldlstat" [("x86", .vint 84)],
  .irregularEmulated "readlink" [("x86", .vint 85), ("x64", .vint 89)],
  .unsupported "uselib" [("x86", .vint 86), ("x64", .vint 134)],
  .unsupported "swapon" [("x86", .vint 87), ("x64", .vint 167)],
  .unsupported "reboot" [("x86", .vint 88), ("x64", .vint 169)],
  .unsupported "readdir" [("x86", .vint 89)],
  .irregularMayExec "mmap" [("x86", .vint 90), ("x64", .vint 9)],
  .executed "munmap" [("x86", .vint 91), ("x64", .vint 11)],
  .emulated "truncate" [("x86", .vint 92), ("x64", .vint 76)],
  .emulated "ftruncate" [("x86", .vint 93), ("x64", .vint 77)],
  .emulated "fchmod" [("x86", .vint 94), ("x64", .vint 91)],
  .emulated "fchown" [("x86", .vint 95), ("x64", .vint 93)],
  .emulated "getpriority" [("x86", .vint 96), ("x64", .vint 140)],
  .irregularEmulated "setpriority" [("x86", .vint 97), ("x64", .vint 141)],
  .invalid "profil" [("x86", .vint 98)],
  .emulated "statfs" [("x86", .vint 99), ("x64", .vint 137), ("arg2", .vstr "typename Arch::statfs")],
  .emulated "fstatfs" [("x86", .vint 100), ("x64", .vint 138), ("arg2", .vstr "typename Arch::statfs")]
]

/-- Declarations 101-150 of the module, in source order. -/
def declarations2 : List Decl := [
  .unsupported "ioperm" [("x86", .vint 101), ("x64", .vint 173)],
  .irregularEmulated "socketcall" [("x86", .vint 102)],
  .unsupported "syslog" [("x86", .vint 103), ("x64", .vint 103)],
  .emulated "setitimer" [("x86", .vint 104), ("x64", .vint 38), ("arg3", .vstr "typename Arch::itimerval")],
  .emulated "getitimer" [("x86", .vint 105), ("x64", .vint 36), ("arg2", .vstr "typename Arch::itimerval")],
  .emulated "stat" [("x86", .vint 106), ("x64", .vint 4), ("arg2", .vstr "typename Arch::stat")],
  .emulated "lstat" [("x86", .vint 107), ("x64", .vint 6), ("arg2", .vstr "typename Arch::stat")],
  .emulated "fstat" [("x86", .vint 108), ("x64", .vint 5), ("arg2", .vstr "typename Arch::stat")],
  .unsupported "olduname" [("x86", .vint 109)],
  .unsupported "iopl" [("x86", .vint 110), ("x64", .vint 172)],
  .unsupported "vhangup" [("x86", .vint 111), ("x64", .vint 153)],
  .unsupported "idle" [("x86", .vint 112)],
  .unsupported "vm86old" [("x86", .vint 113)],
  .irregularEmulated "wait4" [("x86", .vint 114), ("x64", .vint 61)],
  .unsupported "swapoff" [("x86", .vint 115), ("x64", .vint 168)],
  .emulated "sysinfo" [("x86", .vint 116), ("x64", .vint 99), ("arg1", .vstr "typename Arch::sysinfo")],
  .irregularEmulated "ipc" [("x86", .vint 117)],
  .emulated "fsync" [("x86", .vint 118), ("x64", .vint 74)],
  .emulated "sigreturn" [("x86", .vint 119)],
  .irregularMayExec "clone" [("x86", .vint 120), ("x64", .vint 56)],
  .unsupported "setdomainname" [("x86", .vint 121), ("x64", .vint 171)],
  .emulated "uname" [("x86", .vint 122), ("x64", .vint 63), ("arg1", .vstr "typename Arch::utsname")],
  .unsupported "modify_ldt" [("x86", .vint 123), ("x64", .vint 154)],
  .unsupported "adjtimex" [("x86", .vint 124), ("x64", .vint 159)],
  .executed "mprotect" [("x86", .vint 125), ("x64", .vint 10)],
  .emulated "sigprocmask" [("x86", .vint 126), ("arg3", .vstr "typename Arch::sigset_t")],
  .unsupported "create_module" [("x86", .vint 127), ("x64", .vint 174)],
  .unsupported "init_module" [("x86", .vint 128), ("x64", .vint 175)],
  .unsupported "delete_module" [("x86", .vint 129), ("x64", .vint 176)],
  .unsupported "get_kernel_syms" [("x86", .vint 130), ("x64", .vint 177)],
  .irregularEmulated "quotactl" [("x86", .vint 131), ("x64", .vint 179)],
  .emulated "getpgid" [("x86", .vint 132), ("x64", .vint 121)],
  .emulated "fchdir" [("x86", .vint 133), ("x64", .vint 81)],
  .unsupported "bdflush" [("x86", .vint 134)],
  .unsupported "sysfs" [("x86", .vint 135), ("x64", .vint 139)],
  .unsupported "personality" [("x86", .vint 136), ("x64", .vint 135)],
  .invalid "afs_syscall" [("x86", .vint 137), ("x64", .vint 183)],
  .unsupported "setfsuid" [("x86", .vint 138), ("x64", .vint 122)],
  .unsupported "setfsgid" [("x86", .vint 139), ("x64", .vint 123)],
  .emulated "_llseek" [("x86", .vint 140), ("arg4", .vstr "typename Arch::__kernel_loff_t")],
  .irregularEmulated "getdents" [("x86", .vint 141), ("x64", .vint 78)],
  .irregularEmulated "_newselect" [("x86", .vint 142)],
  .unsupported "flock" [("x86", .vint 143), ("x64", .vint 73)],
  .emulated "msync" [("x86", .vint 144), ("x64", .vint 26)],
  .irregularEmulated "readv" [("x86", .vint 145), ("x64", .vint 19)],
  .irregularEmulated "writev" [("x86", .vint 146), ("x64", .vint 20)],
  .emulated "getsid" [("x86", .vint 147), ("x64", .vint 124)],
  .emulated "fdatasync" [("x86", .vint 148), ("x64", .vint 75)],
  .irregularEmulated "_sysctl" [("x86", .vint 149), ("x64", .vint 156)],
  .unsupported "mlock" [("x86", .vint 150), ("x64", .vint 149)]
]

/-- Declarations 151-200 of the module, in source order. -/
def declarations3 : List Decl := [
  .unsupported "munlock" [("x86", .vint 151), ("x64", .vint 150)],
  .unsupported "mlockall" [("x86", .vint 152), ("x64", .vint 151)],
  .unsupported "munlockall" [("x86", .vint 153), ("x64", .vint 152)],
  .unsupported "sched_setparam" [("x86", .vint 154), ("x64", .vint 142)],
  .emulated "sched_getparam" [("x86", .vint 155), ("x64", .vint 143), ("arg2", .vstr "typename Arch::sched_param")],
  .emulated "sched_setscheduler" [("x86", .vint 156), ("x64", .vint 144)],
  .emulated "sched_getscheduler" [("x86", .vint 157), ("x64", .vint 145)],
  .irregularEmulated "sched_yield" [("x86", .vint 158), ("x64", .vint 24)],
  .emulated "sched_get_priority_max" [("x86", .vint 159), ("x64", .vint 146)],
  .emulated "sched_get_priority_min" [("x86", .vint 160), ("x64", .vint 147)],
  .unsupported "sched_rr_get_interval" [("x86", .vint 161), ("x64", .vint 148)],
  .irregularEmulated "nanosleep" [("x86", .vint 162), ("x64", .vint 35)],
  .executed "mremap" [("x86", .vint 163), ("x64", .vint 25)],
  .emulated "setresuid" [("x86", .vint 164), ("x64", .vint 117)],
  .emulated "getresuid" [("x86", .vint 165), ("x64", .vint 118), ("arg1", .vstr "typename Arch::legacy_uid_t"), ("arg2", .vstr "typename Arch::legacy_uid_t"), ("arg3", .vstr "typename Arch::legacy_uid_t")],
  .unsupported "vm86" [("x86", .vint 166)],
  .unsupported "query_module" [("x86", .vint 167), ("x64", .vint 178)],
  .irregularEmulated "poll" [("x86", .vint 168), ("x64", .vint 7)],
  .unsupported "nfsservctl" [("x86", .vint 169), ("x64", .vint 180)],
  .emulated "setresgid" [("x86", .vint 170), ("x64", .vint 119)],
  .emulated "getresgid" [("x86", .vint 171), ("x64", .vint 120), ("arg1", .vstr "typename Arch::legacy_gid_t"), ("arg2", .vstr "typename Arch::legacy_gid_t"), ("arg3", .vstr "typename Arch::legacy_gid_t")],
  .irregularMayExec "prctl" [("x86", .vint 172), ("x64", .vint 157)],
  .emulated "rt_sigreturn" [("x86", .vint 173), ("x64", .vint 15)],
  .emulated "rt_sigaction" [("x86", .vint 174), ("x64", .vint 13), ("arg3", .vstr "typename Arch::kernel_sigaction")],
  .emulated "rt_sigprocmask" [("x86", .vint 175), ("x64", .vint 14), ("arg3", .vstr "typename Arch::sigset_t")],
  .irregularEmulated "rt_sigpending" [("x86", .vint 176), ("x64", .vint 127)],
  .irregularEmulated "rt_sigtimedwait" [("x86", .vint 177), ("x64", .vint 128)],
  .irregularEmulated "rt_sigsuspend" [("x86", .vint 179), ("x64", .vint 130)],
  .irregularEmulated "pread64" [("x86", .vint 180), ("x64", .vint 17)],
  .emulated "pwrite64" [("x86", .vint 181), ("x64", .vint 18)],
  .emulated "chown" [("x86", .vint 182), ("x64", .vint 92)],
  .irregularEmulated "getcwd" [("x86", .vint 183), ("x64", .vint 79)],
  .unsupported "capget" [("x86", .vint 184), ("x64", .vint 125)],
  .unsupported "capset" [("x86", .vint 185), ("x64", .vint 126)],
  .emulated "sigaltstack" [("x86", .vint 186), ("x64", .vint 131), ("arg2", .vstr "typename Arch::stack_t")],
  .irregularEmulated "sendfile" [("x86", .vint 187), ("x64", .vint 40)],
  .invalid "getpmsg" [("x86", .vint 188), ("x64", .vint 181)],
  .invalid "putpmsg" [("x86", .vint 189), ("x64", .vint 182)],
  .irregularEmulated "vfork" [("x86", .vint 190), ("x64", .vint 58)],
  .emulated "ugetrlimit" [("x86", .vint 191), ("arg2", .vstr "typename Arch::rlimit")],
  .irregularMayExec "mmap2" [("x86", .vint 192)],
  .emulated "truncate64" [("x86", .vint 193)],
  .emulated "ftruncate64" [("x86", .vint 194)],
  .emulated "stat64" [("x86", .vint 195), ("arg2", .vstr "typename Arch::stat64")],
  .emulated "lstat64" [("x86", .vint 196), ("arg2", .vstr "typename Arch::stat64")],
  .emulated "fstat64" [("x86", .vint 197), ("arg2", .vstr "typename Arch::stat64")],
  .emulated "lchown32" [("x86", .vint 198)],
  .emulated "getuid32" [("x86", .vint 199)],
  .emulated "getgid32" [("x86", .vint 200)],
  .emulated "geteuid32" [("x86", .vint 201)]
]

/-- Declarations 201-250 of the module, in source order. -/
def declarations4 : List Decl := [
  .emulated "getegid32" [("x86", .vint 202)],
  .unsupported "setreuid32" [("x86", .vint 203)],
  .emulated "setregid32" [("x86", .vint 204)],
  .irregularEmulated "getgroups32" [("x86", .vint 205)],
  .unsupported "setgroups32" [("x86", .vint 206)],
  .emulated "fchown32" [("x86", .vint 207)],
  .emulated "setresuid32" [("x86", .vint 208)],
  .emulated "getresuid32" [("x86", .vint 209), ("arg1", .vstr "typename Arch::uid_t"), ("arg2", .vstr "typename Arch::uid_t"), ("arg3", .vstr "typename Arch::uid_t")],
  .emulated "setresgid32" [("x86", .vint 210)],
  .emulated "getresgid32" [("x86", .vint 211), ("arg1", .vstr "typename Arch::gid_t"), ("arg2", .vstr "typename Arch::gid_t"), ("arg3", .vstr "typename Arch::gid_t")],
  .emulated "chown32" [("x86", .vint 212)],
  .unsupported "setuid32" [("x86", .vint 213)],
  .unsupported "setgid32" [("x86", .vint 214)],
  .unsupported "setfsuid32" [("x86", .vint 215)],
  .unsupported "setfsgid32" [("x86", .vint 216)],
  .unsupported "pivot_root" [("x86", .vint 217), ("x64", .vint 155)],
  .irregularEmulated "mincore" [("x86", .vint 218), ("x64", .vint 27)],
  .executed "madvise" [("x86", .vint 219), ("x64", .vint 28)],
  .irregularEmulated "getdents64" [("x86", .vint 220), ("x64", .vint 217)],
  .irregularEmulated "fcntl64" [("x86", .vint 221)],
  .emulated "gettid" [("x86", .vint 224), ("x64", .vint 186)],
  .emulated "readahead" [("x86", .vint 225), ("x64", .vint 187)],
  .emulated "setxattr" [("x86", .vint 226), ("x64", .vint 188)],
  .emulated "lsetxattr" [("x86", .vint 227), ("x64", .vint 189)],
  .emulated "fsetxattr" [("x86", .vint 228), ("x64", .vint 190)],
  .irregularEmulated "getxattr" [("x86", .vint 229), ("x64", .vint 191)],
  .irregularEmulated "lgetxattr" [("x86", .vint 230), ("x64", .vint 192)],
  .irregularEmulated "fgetxattr" [("x86", .vint 231), ("x64", .vint 193)],
  .unsupported "listxattr" [("x86", .vint 232), ("x64", .vint 194)],
  .unsupported "llistxattr" [("x86", .vint 233), ("x64", .vint 195)],
  .unsupported "flistxattr" [("x86", .vint 234), ("x64", .vint 196)],
  .unsupported "removexattr" [("x86", .vint 235), ("x64", .vint 197)],
  .unsupported "lremovexattr" [("x86", .vint 236), ("x64", .vint 198)],
  .unsupported "fremovexattr" [("x86", .vint 237), ("x64", .vint 199)],
  .unsupported "tkill" [("x86", .vint 238), ("x64", .vint 200)],
  .irregularEmulated "sendfile64" [("x86", .vint 239)],
  .irregularEmulated "futex" [("x86", .vint 240), ("x64", .vint 202)],
  .irregularEmulated "sched_setaffinity" [("x86", .vint 241), ("x64", .vint 203)],
  .emulated "sched_getaffinity" [("x86", .vint 242), ("x64", .vint 204), ("arg3", .vstr "typename Arch::cpu_set_t")],
  .executed "set_thread_area" [("x86", .vint 243), ("x64", .vint 205), ("arg1", .vstr "typename Arch::user_desc")],
  .unsupported "get_thread_area" [("x86", .vint 244), ("x64", .vint 211)],
  .unsupported "io_setup" [("x86", .vint 245), ("x64", .vint 206)],
  .unsupported "io_destroy" [("x86", .vint 246), ("x64", .vint 207)],
  .unsupported "io_getevents" [("x86", .vint 247), ("x64", .vint 208)],
  .unsupported "io_submit" [("x86", .vint 248), ("x64", .vint 209)],
  .unsupported "io_cancel" [("x86", .vint 249), ("x64", .vint 210)],
  .emulated "fadvise64" [("x86", .vint 250), ("x64", .vint 221)],
  .irregularMayExec "exit_group" [("x86", .vint 252), ("x64", .vint 231)],
  .unsupported "lookup_dcookie" [("x86", .vint 253), ("x64", .vint 212)],
  .emulated "epoll_create" [("x86", .vint 254), ("x64", .vint 213)]
]

/-- Declarations 251-300 of the module, in source order. -/
def declarations5 : List Decl := [
  .emulated "epoll_ctl" [("x86", .vint 255), ("x64", .vint 233)],
  .irregularEmulated "epoll_wait" [("x86", .vint 256), ("x64", .vint 232)],
  .unsupported "remap_file_pages" [("x86", .vint 257), ("x64", .vint 216)],
  .executed "set_tid_address" [("x86", .vint 258), ("x64", .vint 218), ("arg1", .vstr "typename Arch::pid_t")],
  .unsupported "timer_create" [("x86", .vint 259), ("x64", .vint 222)],
  .unsupported "timer_settime" [("x86", .vint 260), ("x64", .vint 223)],
  .unsupported "timer_gettime" [("x86", .vint 261), ("x64", .vint 224)],
  .unsupported "timer_getoverrun" [("x86", .vint 262), ("x64", .vint 225)],
  .unsupported "timer_delete" [("x86", .vint 263), ("x64", .vint 226)],
  .unsupported "clock_settime" [("x86", .vint 264), ("x64", .vint 227)],
  .emulated "clock_gettime" [("x86", .vint 265), ("x64", .vint 228), ("arg2", .vstr "typename Arch::timespec")],
  .emulated "clock_getres" [("x86", .vint 266), ("x64", .vint 229), ("arg2", .vstr "typename Arch::timespec")],
  .unsupported "clock_nanosleep" [("x86", .vint 267), ("x64", .vint 230)],
  .emulated "statfs64" [("x86", .vint 268), ("arg3", .vstr "typename Arch::statfs64")],
  .emulated "fstatfs64" [("x86", .vint 269), ("arg3", .vstr "typename Arch::statfs64")],
  .emulated "tgkill" [("x86", .vint 270), ("x64", .vint 234)],
  .emulated "utimes" [("x86", .vint 271), ("x64", .vint 235)],
  .emulated "fadvise64_64" [("x86", .vint 272)],
  .invalid "vserver" [("x86", .vint 273), ("x64", .vint 236)],
  .emulated "mbind" [("x86", .vint 274), ("x64", .vint 237)],
  .unsupported "get_mempolicy" [("x86", .vint 275), ("x64", .vint 239)],
  .unsupported "set_mempolicy" [("x86", .vint 276), ("x64", .vint 238)],
  .unsupported "mq_open" [("x86", .vint 277), ("x64", .vint 240)],
  .unsupported "mq_unlink" [("x86", .vint 278), ("x64", .vint 241)],
  .unsupported "mq_timedsend" [("x86", .vint 279), ("x64", .vint 242)],
  .unsupported "mq_timedreceive" [("x86", .vint 280), ("x64", .vint 243)],
  .unsupported "mq_notify" [("x86", .vint 281), ("x64", .vint 244)],
  .unsupported "mq_getsetattr" [("x86", .vint 282), ("x64", .vint 245)],
  .unsupported "kexec_load" [("x86", .vint 283), ("x64", .vint 246)],
  .irregularEmulated "waitid" [("x86", .vint 284), ("x64", .vint 247)],
  .unsupported "add_key" [("x86", .vint 286), ("x64", .vint 248)],
  .unsupported "request_key" [("x86", .vint 287), ("x64", .vint 249)],
  .unsupported "keyctl" [("x86", .vint 288), ("x64", .vint 250)],
  .unsupported "ioprio_set" [("x86", .vint 289), ("x64", .vint 251)],
  .unsupported "ioprio_get" [("x86", .vint 290), ("x64", .vint 252)],
  .emulated "inotify_init" [("x86", .vint 291), ("x64", .vint 253)],
  .emulated "inotify_add_watch" [("x86", .vint 292), ("x64", .vint 254)],
  .emulated "inotify_rm_watch" [("x86", .vint 293), ("x64", .vint 255)],
  .unsupported "migrate_pages" [("x86", .vint 294), ("x64", .vint 256)],
  .emulated "openat" [("x86", .vint 295), ("x64", .vint 257)],
  .emulated "mkdirat" [("x86", .vint 296), ("x64", .vint 258)],
  .unsupported "mknodat" [("x86", .vint 297), ("x64", .vint 259)],
  .unsupported "fchownat" [("x86", .vint 298), ("x64", .vint 260)],
  .unsupported "futimesat" [("x86", .vint 299), ("x64", .vint 261)],
  .emulated "fstatat64" [("x86", .vint 300), ("x64", .vint 262), ("arg3", .vstr "typename Arch::stat64")],
  .emulated "unlinkat" [("x86", .vint 301), ("x64", .vint 263)],
  .unsupported "renameat" [("x86", .vint 302), ("x64", .vint 264)],
  .unsupported "linkat" [("x86", .vint 303), ("x64", .vint 265)],
  .unsupported "symlinkat" [("x86", .vint 304), ("x64", .vint 266)],
  .unsupported "readlinkat" [("x86", .vint 305), ("x64", .vint 267)]
]

/-- Declarations 301-350 of the module, in source order. -/
def declarations6 : List Decl := [
  .unsupported "fchmodat" [("x86", .vint 306), ("x64", .vint 268)],
  .emulated "faccessat" [("x86", .vint 307), ("x64", .vint 269)],
  .unsupported "pselect6" [("x86", .vint 308), ("x64", .vint 270)],
  .irregularEmulated "ppoll" [("x86", .vint 309), ("x64", .vint 271)],
  .unsupported "unshare" [("x86", .vint 310), ("x64", .vint 272)],
  .executed "set_robust_list" [("x86", .vint 311), ("x64", .vint 273)],
  .unsupported "get_robust_list" [("x86", .vint 312), ("x64", .vint 274)],
  .irregularEmulated "splice" [("x86", .vint 313), ("x64", .vint 275)],
  .unsupported "sync_file_range" [("x86", .vint 314), ("x64", .vint 277)],
  .unsupported "tee" [("x86", .vint 315), ("x64", .vint 276)],
  .unsupported "vmsplice" [("x86", .vint 316), ("x64", .vint 278)],
  .unsupported "move_pages" [("x86", .vint 317), ("x64", .vint 279)],
  .unsupported "getcpu" [("x86", .vint 318), ("x64", .vint 309)],
  .unsupported "epoll_pwait" [("x86", .vint 319), ("x64", .vint 281)],
  .emulated "utimensat" [("x86", .vint 320), ("x64", .vint 280)],
  .emulated "signalfd" [("x86", .vint 321), ("x64", .vint 282)],
  .emulated "timerfd_create" [("x86", .vint 322), ("x64", .vint 283)],
  .unsupported "eventfd" [("x86", .vint 323), ("x64", .vint 284)],
  .emulated "fallocate" [("x86", .vint 324), ("x64", .vint 285)],
  .emulated "timerfd_settime" [("x86", .vint 325), ("x64", .vint 286), ("arg4", .vstr "typename Arch::itimerspec")],
  .emulated "timerfd_gettime" [("x86", .vint 326), ("x64", .vint 287), ("arg2", .vstr "typename Arch::itimerspec")],
  .emulated "signalfd4" [("x86", .vint 327), ("x64", .vint 289)],
  .emulated "eventfd2" [("x86", .vint 328), ("x64", .vint 290)],
  .emulated "epoll_create1" [("x86", .vint 329), ("x64", .vint 291)],
  .emulated "dup3" [("x86", .vint 330), ("x64", .vint 292)],
  .emulated "pipe2" [("x86", .vint 331), ("x64", .vint 293), ("arg1", .vstr "int[2]")],
  .emulated "inotify_init1" [("x86", .vint 332), ("x64", .vint 294)],
  .irregularEmulated "preadv" [("x86", .vint 333), ("x64", .vint 295)],
  .emulated "pwritev" [("x86", .vint 334), ("x64", .vint 296)],
  .emulated "rt_sigqueueinfo" [("x86", .vint 178), ("x64", .vint 129)],
  .emulated "rt_tgsigqueueinfo" [("x86", .vint 335), ("x64", .vint 297)],
  .emulated "perf_event_open" [("x86", .vint 336), ("x64", .vint 298)],
  .irregularEmulated "recvmmsg" [("x86", .vint 337), ("x64", .vint 299)],
  .unsupported "fanotify_init" [("x86", .vint 338), ("x64", .vint 300)],
  .unsupported "fanotify_mark" [("x86", .vint 339), ("x64", .vint 301)],
  .executed "prlimit64" [("x86", .vint 340), ("x64", .vint 302), ("arg4", .vstr "typename Arch::rlimit64")],
  .unsupported "name_to_handle_at" [("x86", .vint 341), ("x64", .vint 303)],
  .unsupported "open_by_handle_at" [("x86", .vint 342), ("x64", .vint 304)],
  .unsupported "clock_adjtime" [("x86", .vint 343), ("x64", .vint 305)],
  .unsupported "syncfs" [("x86", .vint 344), ("x64", .vint 306)],
  .irregularEmulated "sendmmsg" [("x86", .vint 345), ("x64", .vint 307)],
  .unsupported "setns" [("x86", .vint 346), ("x64", .vint 308)],
  .unsupported "process_vm_readv" [("x86", .vint 347), ("x64", .vint 310)],
  .unsupported "process_vm_writev" [("x86", .vint 348), ("x64", .vint 311)],
  .unsupported "kcmp" [("x86", .vint 349), ("x64", .vint 312)],
  .unsupported "finit_module" [("x86", .vint 350), ("x64", .vint 313)],
  .unsupported "sched_setattr" [("x86", .vint 351), ("x64", .vint 314)],
  .unsupported "sched_getattr" [("x86", .vint 352), ("x64", .vint 315)],
  .unsupported "renameat2" [("x86", .vint 353), ("x64", .vint 316)],
  .unsupported "seccomp" [("x86", .vint 354), ("x64", .vint 317)]
]

/-- Declarations 351-388 of the module, in source order. -/
def declarations7 : List Decl := [
  .irregularEmulated "getrandom" [("x86", .vint 355), ("x64", .vint 318)],
  .restart "restart_syscall" [("x86", .vint 0), ("x64", .vint 219)],
  .irregularEmulated "rrcall_init_preload" [("x86", .vint 442), ("x64", .vint 442)],
  .irregularEmulated "rrcall_init_buffers" [("x86", .vint 443), ("x64", .vint 443)],
  .irregularEmulated "rrcall_notify_syscall_hook_exit" [("x86", .vint 444), ("x64", .vint 444)],
  .emulated "socket" [("x64", .vint 41)],
  .emulated "connect" [("x64", .vint 42)],
  .irregularEmulated "accept" [("x64", .vint 43)],
  .emulated "sendto" [("x64", .vint 44)],
  .irregularEmulated "recvfrom" [("x64", .vint 45)],
  .irregularEmulated "sendmsg" [("x64", .vint 46)],
  .irregularEmulated "recvmsg" [("x64", .vint 47)],
  .emulated "shutdown" [("x64", .vint 48)],
  .emulated "bind" [("x64", .vint 49)],
  .emulated "listen" [("x64", .vint 50)],
  .irregularEmulated "getsockname" [("x64", .vint 51)],
  .irregularEmulated "getpeername" [("x64", .vint 52)],
  .emulated "socketpair" [("x64", .vint 53), ("arg4", .vstr "int[2]")],
  .emulated "setsockopt" [("x64", .vint 54)],
  .irregularEmulated "getsockopt" [("x64", .vint 55)],
  .irregularEmulated "accept4" [("x64", .vint 288)],
  .emulated "shmget" [("x64", .vint 29)],
  .irregularEmulated "shmat" [("x64", .vint 30)],
  .irregularEmulated "shmctl" [("x64", .vint 31)],
  .emulated "semget" [("x64", .vint 64)],
  .irregularEmulated "semop" [("x64", .vint 65)],
  .irregularEmulated "semctl" [("x64", .vint 66)],
  .irregularEmulated "shmdt" [("x64", .vint 67)],
  .emulated "msgget" [("x64", .vint 68)],
  .irregularEmulated "msgsnd" [("x64", .vint 69)],
  .irregularEmulated "msgrcv" [("x64", .vint 70)],
  .irregularEmulated "msgctl" [("x64", .vint 71)],
  .irregularEmulated "semtimedop" [("x64", .vint 220)],
  .executed "arch_prctl" [("x64", .vint 158)],
  .invalid "tuxcall" [("x64", .vint 184)],
  .invalid "security" [("x64", .vint 185)],
  .unsupported "epoll_ctl_old" [("x64", .vint 214)],
  .unsupported "epoll_wait_old" [("x64", .vint 215)]
]

/-- The 388 module-level syscall declarations, in source order. -/
def declarations : List Decl :=
  declarations0 ++ declarations1 ++ declarations2 ++ declarations3 ++ declarations4 ++ declarations5 ++ declarations6 ++ declarations7

end Syscalls

namespace Syscalls

/-- `_syscalls()` / `all()`: the registry contents, one `(name, object)` pair
per declaration.  In the source `_syscalls` scans the module globals for
`BaseSyscall` instances; all 388 declared names are distinct, so the globals
hold exactly one binding per declaration and `all()` returns them (in an
order the callers must not rely on). -/
def all : List (String × Syscall) := (buildRegistry declarations).getD []

/-- The two architectures the module knows: the `x86` and `x64` attributes. -/
inductive Arch where
  | x86 : Arch
  | x64 : Arch
deriving DecidableEq

/-- `getattr(s, arch)`: the attribute named by the architecture. -/
def Syscall.archNum (s : Syscall) : Arch → Val
  | .x86 => s.x86
  | .x64 => s.x64

/-- `for_arch(arch)`: filters `all()` to the entries whose attribute for
`arch` `is not None`.  The Python generator restarts from `all()` on every
call; the model is a pure function, so re-evaluation trivially yields the
same list. -/
def for_arch (arch : Arch) : List (String × Syscall) :=
  all.filter (fun p => p.2.archNum arch != Val.vnone)

/-- Modelled from the spec: `lookup_by_number(arch, number) → entry or
NotFound`.  The source module has no such function (its C++ consumers index
the generated table); the spec requires an exact-match lookup over the
registry returning an explicit not-found result.  Modelled as a search of
`all()` for the entry whose number on `arch` is `n`; `none` is the explicit
NotFound result. -/
def lookup_by_number (arch : Arch) (n : Nat) : Option (String × Syscall) :=
  (for_arch arch).find? (fun p => p.2.archNum arch == Val.vint n)

/-- The legal-semantics table of the design: Ordinary entries are `EMU` or
`EXEC`, Irregular entries are `EMU` or `MAY_EXEC`, and Restart, Unsupported
and Invalid entries are `EXEC`. -/
def legalSemantics (s : Syscall) : Bool :=
  (!isOrdinary s || (s.semantics == Val.vstr "EMU" || s.semantics == Val.vstr "EXEC")) &&
  (!isIrregular s || (s.semantics == Val.vstr "EMU" || s.semantics == Val.vstr "MAY_EXEC")) &&
  (!(isRestart s || isUnsupported s) || s.semantics == Val.vstr "EXEC")

/-- How many of the four top-level categories (Ordinary, Irregular,
Unsupported — which contains Invalid — and Restart) an entry belongs to. -/
def categoryCount (s : Syscall) : Nat :=
  (if isOrdinary s then 1 else 0) + (if isIrregular s then 1 else 0) +
  (if isUnsupported s then 1 else 0) + (if isRestart s then 1 else 0)

/-- Structural Boolean equality on `Val` (agrees with `=`). -/
def Val.beq : Val → Val → Bool
  | .vnone, .vnone => true
  | .vint m, .vint n => m == n
  | .vstr s, .vstr t => s == t
  | _, _ => false

/-- Boolean membership via `Val.beq`, evaluating tail-recursively. -/
def memb (x : Val) : List Val → Bool
  | [] => false
  | y :: l => cond (Val.beq y x) true (memb x l)

/-- Boolean duplicate-freedom check, evaluating tail-recursively. -/
def nodupb : List Val → Bool
  | [] => true
  | x :: l => cond (memb x l) false (nodupb l)

end Syscalls

namespace Syscalls

set_option maxRecDepth 100000 in
/-- Every declared construction succeeds: the module loads. -/
theorem buildRegistry_isSome : (buildRegistry declarations).isSome = true := by decide

/-- A keyword that differs from the one looked up does not affect the lookup. -/
theorem lookupKw_cons_ne (k key : String) (v : Val) (kw : Kwargs)
    (h : (k == key) = false) : lookupKw ((k, v) :: kw) key = lookupKw kw key := by
  simp [lookupKw, List.find?_cons, h]

/-- `BaseSyscall.__init__` reads only the `x86` and `x64` keywords: any other
keyword binding is invisible to it. -/
theorem BaseSyscall.init_cons_ne (k : String) (v : Val) (kw : Kwargs)
    (h86 : (k == "x86") = false) (h64 : (k == "x64") = false) :
    BaseSyscall.init ((k, v) :: kw) = BaseSyscall.init kw := by
  unfold BaseSyscall.init
  rw [lookupKw_cons_ne k "x86" v kw h86, lookupKw_cons_ne k "x64" v kw h64]

/-- `ReplaySemantics.__init__` stores exactly the value it was given. -/
theorem ReplaySemantics.init_eq (v w : Val) (h : ReplaySemantics.init v = some w) :
    w = v := by
  unfold ReplaySemantics.init at h
  split at h
  · exact (Option.some.inj h).symm
  · exact absurd h (by simp)

end Syscalls

namespace Syscalls

/-- A successful `RegularSyscall.__init__` stored `EMU` or `EXEC`. -/
theorem regular_semantics_emu_exec (c : Cls) (sem : Val) (kw : Kwargs) (s : Syscall)
    (h : RegularSyscall.init c sem kw = some s) :
    s.semantics = Val.vstr "EMU" ∨ s.semantics = Val.vstr "EXEC" := by
  unfold RegularSyscall.init at h
  by_cases hmem : sem ∈ [Val.vstr "EMU", Val.vstr "EXEC"]
  · rw [if_pos hmem] at h
    cases heq : ReplaySemantics.init sem with
    | none => rw [heq] at h; exact absurd h (by simp)
    | some sem' =>
      rw [heq] at h
      cases hbase : BaseSyscall.init kw with
      | none => rw [hbase] at h; exact absurd h (by simp)
      | some nums =>
        rw [hbase] at h
        cases h
        have hv := ReplaySemantics.init_eq sem sem' heq
        subst hv
        simpa using hmem
  · rw [if_neg hmem] at h
    exact absurd h (by simp)

/-- A successful `IrregularSyscall.__init__` stored `EMU` or `MAY_EXEC`. -/
theorem irregular_semantics_emu_may_exec (c : Cls) (sem : Val) (kw : Kwargs) (s : Syscall)
    (h : IrregularSyscall.init c sem kw = some s) :
    s.semantics = Val.vstr "EMU" ∨ s.semantics = Val.vstr "MAY_EXEC" := by
  unfold IrregularSyscall.init at h
  by_cases hmem : sem ∈ [Val.vstr "MAY_EXEC", Val.vstr "EMU"]
  · rw [if_pos hmem] at h
    cases heq : ReplaySemantics.init sem with
    | none => rw [heq] at h; exact absurd h (by simp)
    | some sem' =>
      rw [heq] at h
      cases hbase : BaseSyscall.init kw with
      | none => rw [hbase] at h; exact absurd h (by simp)
      | some nums =>
        rw [hbase] at h
        cases h
        have hv := ReplaySemantics.init_eq sem sem' heq
        subst hv
        simpa [or_comm] using hmem
  · rw [if_neg hmem] at h
    exact absurd h (by simp)

/-- A successful `RestartSyscall.__init__` stored `EXEC`. -/
theorem restart_semantics_exec (kw : Kwargs) (s : Syscall)
    (h : RestartSyscall.init kw = some s) : s.semantics = Val.vstr "EXEC" := by
  unfold RestartSyscall.init at h
  split at h
  · rcases Option.map_eq_some'.mp h with ⟨nums, _, hs⟩
    exact hs ▸ rfl
  · exact absurd h (by simp)

/-- A successful `UnsupportedSyscall.__init__` stored `EXEC`. -/
theorem unsupported_semantics_exec (kw : Kwargs) (s : Syscall)
    (h : UnsupportedSyscall.init kw = some s) : s.semantics = Val.vstr "EXEC" := by
  unfold UnsupportedSyscall.init at h
  split at h
  · rcases Option.map_eq_some'.mp h with ⟨nums, _, hs⟩
    exact hs ▸ rfl
  · exact absurd h (by simp)

/-- A successful `InvalidSyscall.__init__` stored `EXEC`. -/
theorem invalid_semantics_exec (kw : Kwargs) (s : Syscall)
    (h : InvalidSyscall.init kw = some s) : s.semantics = Val.vstr "EXEC" := by
  unfold InvalidSyscall.init at h
  split at h
  · rcases Option.map_eq_some'.mp h with ⟨t, ht, hs⟩
    have := unsupported_semantics_exec kw t ht
    subst hs
    exact this
  · exact absurd h (by simp)

end Syscalls

namespace Syscalls

set_option maxRecDepth 1000000

/-- C1: For every successfully constructed entry, the replay semantics lies
in the legal set for its category: a Regular (Ordinary) entry has `EMU` or
`EXEC`; an Irregular entry has `EMU` or `MAY_EXEC`; and a Restart,
Unsupported or Invalid entry always has `EXEC` — those three constructors
accept no semantics argument at all (supplying one is a `TypeError`), so
every entry they produce carries `EXEC`.  Moreover every entry of the
assembled registry satisfies the legal-semantics table. -/
theorem C1_semantics_legal_for_category :
    (∀ (c : Cls) (sem : Val) (kw : Kwargs) (s : Syscall),
        RegularSyscall.init c sem kw = some s →
        s.semantics = Val.vstr "EMU" ∨ s.semantics = Val.vstr "EXEC") ∧
    (∀ (c : Cls) (sem : Val) (kw : Kwargs) (s : Syscall),
        IrregularSyscall.init c sem kw = some s →
        s.semantics = Val.vstr "EMU" ∨ s.semantics = Val.vstr "MAY_EXEC") ∧
    (∀ (kw : Kwargs) (s : Syscall),
        RestartSyscall.init kw = some s → s.semantics = Val.vstr "EXEC") ∧
    (∀ (kw : Kwargs) (s : Syscall),
        UnsupportedSyscall.init kw = some s → s.semantics = Val.vstr "EXEC") ∧
    (∀ (kw : Kwargs) (s : Syscall),
        InvalidSyscall.init kw = some s → s.semantics = Val.vstr "EXEC") ∧
    all.all (fun p => legalSemantics p.2) = true :=
  ⟨regular_semantics_emu_exec, irregular_semantics_emu_may_exec,
   restart_semantics_exec, unsupported_semantics_exec,
   invalid_semantics_exec, by decide⟩

/-- Witness for C1, at the `restart_syscall = RestartSyscall(x86=0, x64=219)`
declaration. -/
theorem C1_semantics_legal_for_category_witness :
    (⟨Cls.restart, Val.vint 0, Val.vint 219, Val.vstr "EXEC", []⟩ : Syscall).semantics
      = Val.vstr "EXEC" :=
  C1_semantics_legal_for_category.2.2.1
    [("x86", Val.vint 0), ("x64", Val.vint 219)]
    ⟨Cls.restart, Val.vint 0, Val.vint 219, Val.vstr "EXEC", []⟩ (by decide)

/-- `Val.beq` agrees with propositional equality. -/
theorem Val.beq_iff (x y : Val) : Val.beq x y = true ↔ x = y := by
  cases x <;> cases y <;> simp [Val.beq]

/-- `memb` agrees with list membership. -/
theorem memb_iff (x : Val) (l : List Val) : memb x l = true ↔ x ∈ l := by
  induction l with
  | nil => simp [memb]
  | cons y l ih =>
    rw [memb]
    cases hb : Val.beq y x
    · have hne : ¬(x = y) := fun h => by
        rw [h, (Val.beq_iff y y).mpr rfl] at hb
        exact Bool.noConfusion hb
      simp [ih, List.mem_cons, hne]
    · have hyx : y = x := (Val.beq_iff y x).mp hb
      subst hyx
      simp [hb]

/-- A list passing `nodupb` has no duplicates. -/
theorem nodupb_nodup (l : List Val) (h : nodupb l = true) : l.Nodup := by
  induction l with
  | nil => exact List.nodup_nil
  | cons x l ih =>
    rw [nodupb] at h
    cases hm : memb x l
    · rw [hm] at h
      refine List.nodup_cons.mpr ⟨fun hx => ?_, ih h⟩
      rw [← memb_iff, hm] at hx
      exact Bool.noConfusion hx
    · rw [hm] at h
      exact absurd h (by simp)

set_option maxHeartbeats 8000000 in
/-- On each architecture, the numbers of the entries defined there are
pairwise distinct (as mapped lists without duplicates). -/
theorem numbers_nodup (a : Arch) :
    ((for_arch a).map (fun p => p.2.archNum a)).Nodup := by
  cases a <;> exact nodupb_nodup _ rfl

/-- C2: For every architecture `a` and every pair of distinct entries of the
registry that are both defined on `a`, the two entries' call numbers on `a`
differ.  The socketcall/ipc sub-calls exist only as x64 numbers, where they
are ordinary distinct syscalls, so no exception is even needed: number
uniqueness holds unconditionally on both architectures. -/
theorem C2_numbers_unique_per_arch (a : Arch) :
    (for_arch a).Pairwise (fun p q => p.2.archNum a ≠ q.2.archNum a) :=
  List.pairwise_map.mp (numbers_nodup a)

/-- C3 (code bug): `assert x86 or x64` uses Python truthiness, so supplying
the legitimate call number `0` for one architecture and nothing for the
other is rejected even though a number was supplied (`read` is x64 number 0
and `restart_syscall` is x86 number 0; both load only because their number
on the other architecture is non-zero).  The empty declaration is rejected
as the claim states. -/
theorem C3_zero_number_construction_fails :
    BaseSyscall.init [("x64", Val.vint 0)] = none ∧
    EmulatedSyscall.init [("x64", Val.vint 0)] = none ∧
    BaseSyscall.init [] = none := by decide

end Syscalls

namespace Syscalls

set_option maxRecDepth 1000000

/-- C4: `for_arch(a)` yields exactly the pairs of `all()` whose entry has a
defined (non-`None`) number for `a`.  `for_arch` is a pure function of the
registry — the Python generator builds a fresh pass over `all()` on every
call — so re-evaluating it trivially yields the same list: there is no
hidden state to mutate. -/
theorem C4_for_arch_filters (a : Arch) (p : String × Syscall) :
    p ∈ for_arch a ↔ p ∈ all ∧ p.2.archNum a ≠ Val.vnone := by
  simp [for_arch, List.mem_filter, bne_iff_ne]

/-- Witness for C4 at the `read` entry, which is defined on x64. -/
theorem C4_for_arch_filters_witness :
    ("read", ⟨Cls.irregularEmulated, Val.vint 3, Val.vint 0, Val.vstr "EMU", []⟩)
      ∈ for_arch Arch.x64 :=
  (C4_for_arch_filters Arch.x64
    ("read", ⟨Cls.irregularEmulated, Val.vint 3, Val.vint 0, Val.vstr "EMU", []⟩)).mpr
    ⟨by decide, by decide⟩

/-- In a list whose keys are pairwise distinct, `find?` on the key of a
member returns exactly that member. -/
theorem find?_eq_some_of_nodup_keys {α κ : Type} [DecidableEq κ] (key : α → κ) :
    ∀ (l : List α) (p : α), p ∈ l → (l.map key).Nodup →
      l.find? (fun q => key q == key p) = some p := by
  intro l
  induction l with
  | nil => intro p hp _; cases hp
  | cons q rest ih =>
    intro p hp hnd
    rw [List.map_cons, List.nodup_cons] at hnd
    rcases List.mem_cons.mp hp with hqp | hp'
    · subst hqp
      exact List.find?_cons_of_pos rest (by simp)
    · have hne : (key q == key p) = false := by
        rw [beq_eq_false_iff_ne]
        intro h
        exact hnd.1 (h ▸ List.mem_map_of_mem key hp')
      rw [List.find?_cons_of_neg rest (by simp [hne]), ih p hp' hnd.2]

/-- C5: Modelled from the spec (`lookup_by_number` does not exist in the
Python module).  For every entry defined on architecture `a`, looking up its
number on `a` returns exactly that entry (the numbers are pairwise distinct
per architecture, so the match is unique), and a number matching no entry
returns the explicit not-found result `none` — never an exception. -/
theorem C5_lookup_by_number_round_trip :
    (∀ (a : Arch) (p : String × Syscall) (n : Nat),
        p ∈ all → p.2.archNum a = Val.vint n → lookup_by_number a n = some p) ∧
    (∀ (a : Arch) (n : Nat),
        (∀ p ∈ all, p.2.archNum a ≠ Val.vint n) → lookup_by_number a n = none) := by
  constructor
  · intro a p n hp hn
    have hmem : p ∈ for_arch a := by
      rw [for_arch, List.mem_filter]
      exact ⟨hp, by simp [hn]⟩
    unfold lookup_by_number
    rw [← hn]
    exact find?_eq_some_of_nodup_keys (fun q => q.2.archNum a) (for_arch a) p hmem
      (numbers_nodup a)
  · intro a n h
    unfold lookup_by_number
    rw [List.find?_eq_none]
    intro p hmem
    have hp : p ∈ all := (List.mem_filter.mp hmem).1
    simpa using h p hp

/-- Witness for C5: looking up x64 number 0 yields the `read` entry. -/
theorem C5_lookup_by_number_round_trip_witness :
    lookup_by_number Arch.x64 0 =
      some ("read", ⟨Cls.irregularEmulated, Val.vint 3, Val.vint 0, Val.vstr "EMU", []⟩) :=
  C5_lookup_by_number_round_trip.1 Arch.x64
    ("read", ⟨Cls.irregularEmulated, Val.vint 3, Val.vint 0, Val.vstr "EMU", []⟩) 0
    (by decide) rfl

end Syscalls

namespace Syscalls

set_option maxRecDepth 1000000

/-- C6: Constructing a Regular (Ordinary) entry with `MAY_EXEC` semantics
fails at construction time, for every dynamic class and every combination of
the other keyword arguments: the first assertion of
`RegularSyscall.__init__` rejects it. -/
theorem C6_regular_may_exec_rejected (c : Cls) (kw : Kwargs) :
    RegularSyscall.init c (Val.vstr "MAY_EXEC") kw = none := by
  unfold RegularSyscall.init
  exact if_neg (by decide)

/-- C7 counterexample: declaring an Irregular entry with a shape keyword is
accepted, not rejected: `IrregularEmulatedSyscall(x86=7, arg1="int")`
constructs an entry (the keyword lands in `BaseSyscall.__init__`'s ignored
`**kwargs`). -/
theorem C7_shape_on_irregular_counterexample :
    (IrregularEmulatedSyscall.init [("x86", Val.vint 7), ("arg1", Val.vstr "int")]).isSome
      = true := by decide

/-- An extra keyword other than `semantics`, `x86`, `x64` is invisible to
both irregular wrapper constructors. -/
theorem irregular_wrappers_ignore_key (k : String) (v : Val) (kw : Kwargs)
    (hsem : (k == "semantics") = false)
    (h86 : (k == "x86") = false) (h64 : (k == "x64") = false) :
    IrregularEmulatedSyscall.init ((k, v) :: kw) = IrregularEmulatedSyscall.init kw ∧
    IrregularMayExecSyscall.init ((k, v) :: kw) = IrregularMayExecSyscall.init kw := by
  unfold IrregularEmulatedSyscall.init IrregularMayExecSyscall.init IrregularSyscall.init
  rw [lookupKw_cons_ne k "semantics" v kw hsem, BaseSyscall.init_cons_ne k v kw h86 h64]
  exact ⟨rfl, rfl⟩

/-- C7 amended: attaching an `argN` shape keyword to an Irregular entry is
not a construction-time error; it is silently discarded.  A successful
`IrregularSyscall.__init__` never stores argument shapes, and adding any
`argN` keyword to a declaration changes nothing about the constructed
entry. -/
theorem C7_shape_on_irregular_ignored :
    (∀ (c : Cls) (sem : Val) (kw : Kwargs) (s : Syscall),
        IrregularSyscall.init c sem kw = some s → s.args = []) ∧
    (∀ (k : String) (v : Val) (kw : Kwargs),
        k ∈ ["arg1", "arg2", "arg3", "arg4", "arg5", "arg6"] →
        IrregularEmulatedSyscall.init ((k, v) :: kw) = IrregularEmulatedSyscall.init kw ∧
        IrregularMayExecSyscall.init ((k, v) :: kw) = IrregularMayExecSyscall.init kw) := by
  constructor
  · intro c sem kw s h
    unfold IrregularSyscall.init at h
    by_cases hmem : sem ∈ [Val.vstr "MAY_EXEC", Val.vstr "EMU"]
    · rw [if_pos hmem] at h
      cases heq : ReplaySemantics.init sem with
      | none => rw [heq] at h; exact absurd h (by simp)
      | some sem' =>
        rw [heq] at h
        cases hbase : BaseSyscall.init kw with
        | none => rw [hbase] at h; exact absurd h (by simp)
        | some nums =>
          rw [hbase] at h
          cases h
          rfl
    · rw [if_neg hmem] at h
      exact absurd h (by simp)
  · intro k v kw hk
    fin_cases hk <;>
      exact irregular_wrappers_ignore_key _ _ kw (by decide) (by decide) (by decide)

/-- Witness for C7 as amended, at `IrregularEmulatedSyscall(x86=7)` with an
`arg1` keyword added. -/
theorem C7_shape_on_irregular_ignored_witness :
    (⟨Cls.irregularEmulated, Val.vint 7, Val.vnone, Val.vstr "EMU", []⟩ : Syscall).args = [] ∧
    IrregularEmulatedSyscall.init [("arg1", Val.vstr "int"), ("x86", Val.vint 7)] =
      IrregularEmulatedSyscall.init [("x86", Val.vint 7)] :=
  ⟨C7_shape_on_irregular_ignored.1 Cls.irregularEmulated (Val.vstr "EMU")
      [("x86", Val.vint 7), ("arg1", Val.vstr "int")]
      ⟨Cls.irregularEmulated, Val.vint 7, Val.vnone, Val.vstr "EMU", []⟩ (by decide),
   (C7_shape_on_irregular_ignored.2 "arg1" (Val.vstr "int") [("x86", Val.vint 7)]
      (by decide)).1⟩

/-- C8 (code bug): the `RegularSyscall` docstring says shape descriptors are
accepted "through the arg1...arg6 keyword arguments", but the storing loop
is `for a in range(1,6)`, which runs over 1..5 only: a descriptor supplied
at position 6 is silently dropped, while positions 1..5 are stored and
retrievable. -/
theorem C8_arg6_dropped :
    (EmulatedSyscall.init [("x86", Val.vint 13), ("arg6", Val.vstr "typename Arch::time_t")]).map
        (fun s => s.getArg 6) = some none ∧
    (EmulatedSyscall.init [("x86", Val.vint 13), ("arg5", Val.vstr "typename Arch::time_t")]).map
        (fun s => s.getArg 5) = some (some (Val.vstr "typename Arch::time_t")) ∧
    (EmulatedSyscall.init [("x86", Val.vint 13), ("arg1", Val.vstr "typename Arch::time_t")]).map
        (fun s => s.getArg 1) = some (some (Val.vstr "typename Arch::time_t")) := by
  decide

end Syscalls

namespace Syscalls

set_option maxRecDepth 1000000

/-- C9 counterexample: `InvalidSyscall` subclasses `UnsupportedSyscall`, so
the `tuxcall` registry entry is classified both Invalid and Unsupported at
once — the five categories are not mutually exclusive as stated. -/
theorem C9_categories_counterexample :
    ("tuxcall", ⟨Cls.invalid, Val.vnone, Val.vint 184, Val.vstr "EXEC", []⟩) ∈ all ∧
    isInvalid ⟨Cls.invalid, Val.vnone, Val.vint 184, Val.vstr "EXEC", []⟩ = true ∧
    isUnsupported ⟨Cls.invalid, Val.vnone, Val.vint 184, Val.vstr "EXEC", []⟩ = true := by
  decide

/-- C9 amended: every entry belongs to exactly one of the four top-level
categories Ordinary, Irregular, Unsupported and Restart; Invalid is a
sub-category of Unsupported (`InvalidSyscall` subclasses
`UnsupportedSyscall` in the source), and outside that containment an
Invalid entry belongs to no other category. -/
theorem C9_categories_partition (s : Syscall) :
    categoryCount s = 1 ∧
    (isInvalid s = true → isUnsupported s = true) ∧
    (isInvalid s = true →
      isOrdinary s = false ∧ isIrregular s = false ∧ isRestart s = false) := by
  obtain ⟨c, a, b, m, g⟩ := s
  cases c <;>
    simp [categoryCount, isOrdinary, isIrregular, isUnsupported, isInvalid, isRestart]

/-- Witness for C9 as amended, at the `tuxcall` entry object. -/
theorem C9_categories_partition_witness :
    categoryCount ⟨Cls.invalid, Val.vnone, Val.vint 184, Val.vstr "EXEC", []⟩ = 1 ∧
    isUnsupported ⟨Cls.invalid, Val.vnone, Val.vint 184, Val.vstr "EXEC", []⟩ = true :=
  ⟨(C9_categories_partition ⟨Cls.invalid, Val.vnone, Val.vint 184, Val.vstr "EXEC", []⟩).1,
   (C9_categories_partition ⟨Cls.invalid, Val.vnone, Val.vint 184, Val.vstr "EXEC", []⟩).2.1
     rfl⟩

/-- C10 counterexample: `UnsupportedSyscall.__init__(self, x86=None,
x64=None)` takes no `**kwargs`, so an unrecognized keyword argument is a
`TypeError`: construction fails instead of producing an entry. -/
theorem C10_unknown_kwarg_counterexample :
    UnsupportedSyscall.init [("x86", Val.vint 1), ("Arm", Val.vint 5)] = none := by decide

/-- An extra keyword other than the ones `RegularSyscall.__init__` reads
(`x86`, `x64`, `arg1`..`arg5`) is invisible to it. -/
theorem regular_init_ignores_key (c : Cls) (sem : Val) (k : String) (v : Val)
    (kw : Kwargs)
    (h86 : (k == "x86") = false) (h64 : (k == "x64") = false)
    (h1 : (k == "arg1") = false) (h2 : (k == "arg2") = false)
    (h3 : (k == "arg3") = false) (h4 : (k == "arg4") = false)
    (h5 : (k == "arg5") = false) :
    RegularSyscall.init c sem ((k, v) :: kw) = RegularSyscall.init c sem kw := by
  unfold RegularSyscall.init RegularSyscall.argAttrs RegularSyscall.argAttr
  rw [BaseSyscall.init_cons_ne k v kw h86 h64,
      lookupKw_cons_ne k ("arg" ++ toString (1 : Nat)) v kw h1,
      lookupKw_cons_ne k ("arg" ++ toString (2 : Nat)) v kw h2,
      lookupKw_cons_ne k ("arg" ++ toString (3 : Nat)) v kw h3,
      lookupKw_cons_ne k ("arg" ++ toString (4 : Nat)) v kw h4,
      lookupKw_cons_ne k ("arg" ++ toString (5 : Nat)) v kw h5]

/-- An extra keyword other than `x86`/`x64` is invisible to
`IrregularSyscall.__init__`. -/
theorem irregular_init_ignores_key (c : Cls) (sem : Val) (k : String) (v : Val)
    (kw : Kwargs)
    (h86 : (k == "x86") = false) (h64 : (k == "x64") = false) :
    IrregularSyscall.init c sem ((k, v) :: kw) = IrregularSyscall.init c sem kw := by
  unfold IrregularSyscall.init
  rw [BaseSyscall.init_cons_ne k v kw h86 h64]

/-- The fixed-signature constructors reject any keyword beyond `x86`/`x64`. -/
theorem fixed_signature_rejects (k : String) (v : Val) (kw : Kwargs)
    (h86 : (k == "x86") = false) (h64 : (k == "x64") = false) :
    RestartSyscall.init ((k, v) :: kw) = none ∧
    UnsupportedSyscall.init ((k, v) :: kw) = none ∧
    InvalidSyscall.init ((k, v) :: kw) = none := by
  unfold RestartSyscall.init UnsupportedSyscall.init InvalidSyscall.init
  have hall : (((k, v) :: kw).all (fun p => p.1 == "x86" || p.1 == "x64")) = false := by
    simp [List.all_cons, h86, h64]
  rw [hall]
  exact ⟨rfl, rfl, rfl⟩

/-- C10 corrected: only the Regular- and Irregular-family constructors
silently accept and discard unrecognized keyword arguments (their `**kwargs`
lands in `BaseSyscall.__init__`, which ignores what it does not read); the
Restart, Unsupported and Invalid constructors have fixed `(x86, x64)`
signatures, so an unrecognized keyword there fails construction with a
`TypeError`. -/
theorem C10_unknown_kwargs :
    (∀ (c : Cls) (sem : Val) (k : String) (v : Val) (kw : Kwargs),
        k ∉ ["x86", "x64", "arg1", "arg2", "arg3", "arg4", "arg5"] →
        RegularSyscall.init c sem ((k, v) :: kw) = RegularSyscall.init c sem kw) ∧
    (∀ (c : Cls) (sem : Val) (k : String) (v : Val) (kw : Kwargs),
        k ∉ ["x86", "x64"] →
        IrregularSyscall.init c sem ((k, v) :: kw) = IrregularSyscall.init c sem kw) ∧
    (∀ (k : String) (v : Val) (kw : Kwargs),
        k ≠ "x86" → k ≠ "x64" →
        RestartSyscall.init ((k, v) :: kw) = none ∧
        UnsupportedSyscall.init ((k, v) :: kw) = none ∧
        InvalidSyscall.init ((k, v) :: kw) = none) := by
  refine ⟨?_, ?_, ?_⟩
  · intro c sem k v kw h
    simp only [List.mem_cons, List.not_mem_nil, or_false, not_or] at h
    obtain ⟨n86, n64, n1, n2, n3, n4, n5⟩ := h
    exact regular_init_ignores_key c sem k v kw
      (beq_eq_false_iff_ne.mpr n86) (beq_eq_false_iff_ne.mpr n64)
      (beq_eq_false_iff_ne.mpr n1) (beq_eq_false_iff_ne.mpr n2)
      (beq_eq_false_iff_ne.mpr n3) (beq_eq_false_iff_ne.mpr n4)
      (beq_eq_false_iff_ne.mpr n5)
  · intro c sem k v kw h
    simp only [List.mem_cons, List.not_mem_nil, or_false, not_or] at h
    obtain ⟨n86, n64⟩ := h
    exact irregular_init_ignores_key c sem k v kw
      (beq_eq_false_iff_ne.mpr n86) (beq_eq_false_iff_ne.mpr n64)
  · intro k v kw h86 h64
    exact fixed_signature_rejects k v kw
      (beq_eq_false_iff_ne.mpr h86) (beq_eq_false_iff_ne.mpr h64)

/-- Witness for C10 as amended, with the unrecognized keyword `Arm`. -/
theorem C10_unknown_kwargs_witness :
    RegularSyscall.init Cls.regular (Val.vstr "EMU")
        [("Arm", Val.vint 5), ("x86", Val.vint 1)] =
      RegularSyscall.init Cls.regular (Val.vstr "EMU") [("x86", Val.vint 1)] ∧
    RestartSyscall.init [("Arm", Val.vint 5)] = none :=
  ⟨C10_unknown_kwargs.1 Cls.regular (Val.vstr "EMU") "Arm" (Val.vint 5)
      [("x86", Val.vint 1)] (by decide),
   (C10_unknown_kwargs.2.2 "Arm" (Val.vint 5) [] (by decide) (by decide)).1⟩

end Syscalls
